import Mathlib

/-!
Shallow embedding of the Enhanced Antenna Pattern (EAP) gain engine of the
Spectrum-Access_System Release-2 repository, together with theorems settling
the frozen claims about it.

Two near-identical Python modules implement the engine:
  * `src/lib/antenna/antenna.py`            — embedded in namespace `Lib`
  * `src/harness/reference_models/antenna/antenna.py` — embedded in
    namespace `Harness` (it adds the dispatcher `calculate_antenna_gain_EAP`).

Modelling conventions:
  * Python floats are modelled by `ℝ`; `np.cos` by `Real.cos`,
    `np.arccos` by `Real.arccos`, `np.log10` by `Real.logb 10`.
  * The engine's per-direction computations are modelled element-wise
    (the numpy `atleast_1d` wrapping of a scalar into a 1-element array and
    the final `[0]` extraction cancel; the façade functions that really
    branch on scalar-versus-vector shape are modelled on `ℝ ⊕ List ℝ`).
  * Python dicts `{'hor': .., 'ver': ..}` are modelled by the structures
    `Dirs` (both keys present) and `DirsOpt` (each key optional), pattern
    dicts `{'angle': [..], 'gain': [..]}` by `Pattern`.
  * Python list indexing `l[i]` is modelled by `List.getD i 0`; the source
    raises `IndexError`/`ValueError` on the corresponding out-of-range or
    empty-sequence cases, which no theorem below exercises.
  * Optional / absent / falsy Python arguments are modelled by `Option ℝ`
    (`none` = absent or `None`).
-/

open Real

/-- Horizontal and vertical direction (degrees), both present:
the Python dict `{'hor': .., 'ver': ..}`. -/
structure Dirs where
  hor : ℝ
  ver : ℝ

/-- A direction dict in which either key may be missing (the source builds
dicts such as `{'hor': 0}` or `{'ver': phi_r_sup}`). -/
structure DirsOpt where
  hor : Option ℝ
  ver : Option ℝ

/-- An antenna pattern dict `{'angle': [...], 'gain': [...]}`. -/
structure Pattern where
  angle : List ℝ
  gain : List ℝ

namespace Lib

/-- The source's inline two-step angle correction, applied to `theta_r`
arrays in `get_dirs_relative_boresight` (lines 60-62) and to `bore_angle`
in `get_radar_normalized_gains` (lines 698-700):
`x[x > 180] -= 360` followed by `x[x < -180] += 360`. -/
noncomputable def fold1 (x : ℝ) : ℝ :=
  let y := if x > 180 then x - 360 else x
  if y < -180 then y + 360 else y

/-- `get_dirs_relative_boresight(dirs, ant_az, downtilt=None)`:
`theta_r = fold(dirs['hor'] - ant_az)`; `phi_r = 0` when no downtilt is
given, else `dirs['ver'] + downtilt * np.cos(theta_r * 180 / np.pi)`
(the source multiplies the degree-valued angle by `180/pi`). -/
noncomputable def get_dirs_relative_boresight (dirs : Dirs) (ant_az : ℝ)
    (downtilt : Option ℝ := none) : Dirs :=
  let theta_r := fold1 (dirs.hor - ant_az)
  let phi_r := match downtilt with
    | none => 0
    | some d => dirs.ver + d * Real.cos (theta_r * (180 / Real.pi))
  ⟨theta_r, phi_r⟩

/-- `limit_downtilt_value(downtilt)`: `-15` floor then `min(_, 15)`. -/
noncomputable def limit_downtilt_value (downtilt : ℝ) : ℝ :=
  let d := if downtilt < -15 then -15 else downtilt
  min d 15

/-- `get_multiple_indices(lst, key)`:
`[idx for idx, value in enumerate(lst) if value == key]`. -/
noncomputable def get_multiple_indices (lst : List ℝ) (key : ℝ) : List ℕ :=
  (lst.enum.filter (fun p => p.2 == key)).map Prod.fst

/-- `_get_gain_at_angle(angle, pattern)`: exact-sample lookup when the angle
occurs in the pattern's angle list, else linear interpolation between the
closest sample below and the closest sample above (found through signed
differences). -/
noncomputable def _get_gain_at_angle (angle : ℝ) (pattern : Pattern) : ℝ :=
  let angle_list := pattern.angle
  let gain_list := pattern.gain
  let angle_idx_list := get_multiple_indices angle_list angle
  if angle_idx_list ≠ [] then
    gain_list.getD (angle_idx_list.headD 0) 0
  else
    let angle_diff := angle_list.map (fun i => angle - i)
    let positive_angle_diff := angle_diff.filter (fun i => decide (0 < i))
    let angle_a_pos := angle_list.getD
      (angle_diff.findIdx (fun x => x == (positive_angle_diff.min?.getD 0))) 0
    let negative_angle_diff := angle_diff.filter (fun i => decide (i < 0))
    let angle_a_neg := angle_list.getD
      (angle_diff.findIdx (fun x => x == (negative_angle_diff.max?.getD 0))) 0
    let angle_a_pos_idx := get_multiple_indices angle_list angle_a_pos
    let gain_at_pos_angle_idx := gain_list.getD (angle_a_pos_idx.headD 0) 0
    let angle_a_neg_idx := get_multiple_indices angle_list angle_a_neg
    let gain_at_neg_angle_idx := gain_list.getD (angle_a_neg_idx.headD 0) 0
    ((angle_a_neg - angle) * gain_at_pos_angle_idx
      + (angle - angle_a_pos) * gain_at_neg_angle_idx) / (angle_a_neg - angle_a_pos)

/-- `get_given_2d_pattern_gains(dirs, hor_pattern, ver_pattern, ant_azimuth,
ant_mech_downtilt)`: horizontal gain at `theta_r`, vertical gain at `phi_r`
and at the (360-corrected) supplementary angle `180 - phi_r`. Components for
an absent pattern default to `0` (the source leaves an empty placeholder
list that no caller consumes on those paths). The azimuth and downtilt
parameters are accepted and ignored, as in the source. -/
noncomputable def get_given_2d_pattern_gains (dirs : Dirs)
    (hor_pattern : Option Pattern := none) (ver_pattern : Option Pattern := none)
    (ant_azimuth : Option ℝ := none) (ant_mech_downtilt : Option ℝ := none) :
    ℝ × ℝ × ℝ :=
  let theta_r := dirs.hor
  let phi_r := dirs.ver
  let g_h_theta_r := match hor_pattern with
    | none => 0
    | some hp => _get_gain_at_angle theta_r hp
  let g_v := match ver_pattern with
    | none => (0, 0)
    | some vp =>
      let g_v_phi_r := _get_gain_at_angle phi_r vp
      let sup0 := 180 - phi_r
      let phi_r_supplementary_angle := if sup0 ≥ 180 then sup0 - 360 else sup0
      (g_v_phi_r, _get_gain_at_angle phi_r_supplementary_angle vp)
  (g_h_theta_r, g_v.1, g_v.2)

/-- `get_standard_2d_gains(dirs, ant_azimuth, peak_ant_gain,
ant_mech_downtilt, ant_hor_beamwidth, ant_ver_beamwidth, ant_fbr)`:
synthetic horizontal/vertical gains.  For a present plane, isotropic
(`peak`) when the matching beamwidth is absent, zero or 360 (or, for the
horizontal plane, the azimuth is absent; for the vertical plane, the
downtilt is absent); otherwise `peak - min(12*(angle/BW)^2, fbr)`.
A missing direction key leaves a `0` placeholder (empty list in the
source, never consumed by callers). -/
noncomputable def get_standard_2d_gains (dirs : DirsOpt)
    (ant_azimuth : Option ℝ := none) (peak_ant_gain : ℝ := 0)
    (ant_mech_downtilt : Option ℝ := none) (ant_hor_beamwidth : Option ℝ := none)
    (ant_ver_beamwidth : Option ℝ := none) (ant_fbr : Option ℝ := none) :
    ℝ × ℝ :=
  let fbr := ant_fbr.getD 20
  let g_h_theta_r := match dirs.hor with
    | none => 0
    | some theta_r =>
      if ant_hor_beamwidth = none ∨ ant_azimuth = none
          ∨ ant_hor_beamwidth = some 0 ∨ ant_hor_beamwidth = some 360 then
        peak_ant_gain
      else
        -(min (12 * (theta_r / ant_hor_beamwidth.getD 0) ^ 2) fbr) + peak_ant_gain
  let g_v_phi_r := match dirs.ver with
    | none => 0
    | some phi_r =>
      if ant_ver_beamwidth = none ∨ ant_mech_downtilt = none
          ∨ ant_ver_beamwidth = some 0 ∨ ant_ver_beamwidth = some 360 then
        peak_ant_gain
      else
        -(min (12 * (phi_r / ant_ver_beamwidth.getD 0) ^ 2) fbr) + peak_ant_gain
  (g_h_theta_r, g_v_phi_r)

/-- `get_2d_antenna_gain(dirs, hor_gain, ver_gain, ver_gain_sup_angle,
hor_gain_0, hor_gain_180, peak_ant_gain)`: the Method B1 step-b 2-D
combination.  The blending weight is `abs(dirs['hor'])/180` of whatever
direction dict the caller passes in. -/
noncomputable def get_2d_antenna_gain (dirs : Dirs) (hor_gain ver_gain
    ver_gain_sup_angle hor_gain_0 hor_gain_180 : ℝ) (peak_ant_gain : ℝ := 0) : ℝ :=
  let hor_dir := dirs.hor
  let g_cbsd_relative := hor_gain + ((1 - |hor_dir| / 180) * (ver_gain - hor_gain_0)
    + (|hor_dir| / 180) * (ver_gain_sup_angle - hor_gain_180))
  g_cbsd_relative + peak_ant_gain

/-- `b1_antenna_gain(dirs, ant_az, peak_ant_gain, hor_pattern, ver_pattern,
downtilt)`: Method B1.  Boresight-relative dirs are computed with the
pre-clamp downtilt; the downtilt is clamped afterwards; the 2-D combination
receives the original `dirs`. -/
noncomputable def b1_antenna_gain (dirs : Dirs) (ant_az peak_ant_gain : ℝ)
    (hor_pattern ver_pattern : Pattern) (downtilt : ℝ) : ℝ :=
  let dirs_relative_boresight := get_dirs_relative_boresight dirs ant_az (some downtilt)
  let downtilt2 := limit_downtilt_value downtilt
  let g := get_given_2d_pattern_gains dirs_relative_boresight
    (some hor_pattern) (some ver_pattern) (some ant_az) (some downtilt2)
  get_2d_antenna_gain dirs g.1 g.2.1 g.2.2
    (hor_pattern.gain.getD 180 0) (hor_pattern.gain.getD 0 0) peak_ant_gain

/-- `c_antenna_gain(dirs, ant_az, peak_ant_gain, downtilt, hor_beamwidth,
ver_beamwidth, fbr)`: Method C.  All per-plane gains come from
`get_standard_2d_gains` (which adds `peak_ant_gain` into them); the 2-D
combination receives the original `dirs` and adds `peak_ant_gain` again. -/
noncomputable def c_antenna_gain (dirs : Dirs) (ant_az peak_ant_gain downtilt
    hor_beamwidth ver_beamwidth fbr : ℝ) : ℝ :=
  let dirs_relative_boresight := get_dirs_relative_boresight dirs ant_az (some downtilt)
  let downtilt2 := limit_downtilt_value downtilt
  let g := get_standard_2d_gains
    ⟨some dirs_relative_boresight.hor, some dirs_relative_boresight.ver⟩
    (some ant_az) peak_ant_gain (some downtilt2) (some hor_beamwidth)
    (some ver_beamwidth) (some fbr)
  let phi_r := dirs_relative_boresight.ver
  let g0 := get_standard_2d_gains ⟨some 0, none⟩ (some ant_az) peak_ant_gain
    none (some hor_beamwidth) none (some fbr)
  let g180 := get_standard_2d_gains ⟨some 180, none⟩ (some ant_az) peak_ant_gain
    none (some hor_beamwidth) none (some fbr)
  let gsup := get_standard_2d_gains ⟨none, some (180 - phi_r)⟩ (some ant_az)
    peak_ant_gain (some downtilt2) none (some ver_beamwidth) (some fbr)
  get_2d_antenna_gain dirs g.1 g.2 gsup.2 g0.1 g180.1 peak_ant_gain

/-- `d_antenna_gain(dirs, ant_az, peak_ant_gain, hor_patt, downtilt,
ver_beamwidth, fbr)`: Method D.  Horizontal gain interpolated from the
pattern, vertical synthesized; the 2-D combination receives the
boresight-relative dirs (not the original `dirs`). -/
noncomputable def d_antenna_gain (dirs : Dirs) (ant_az peak_ant_gain : ℝ)
    (hor_patt : Pattern) (downtilt ver_beamwidth fbr : ℝ) : ℝ :=
  let dirs_relative_boresight := get_dirs_relative_boresight dirs ant_az (some downtilt)
  let downtilt2 := limit_downtilt_value downtilt
  let phi_r := dirs_relative_boresight.ver
  let gh := get_given_2d_pattern_gains dirs_relative_boresight
    (some hor_patt) none (some ant_az) none
  let g_h_theta_0 := hor_patt.gain.getD 180 0
  let g_h_theta_180 := hor_patt.gain.getD 0 0
  let gv := get_standard_2d_gains
    ⟨some dirs_relative_boresight.hor, some dirs_relative_boresight.ver⟩
    (some ant_az) peak_ant_gain (some downtilt2) none (some ver_beamwidth) (some fbr)
  let gvsup := get_standard_2d_gains ⟨none, some (180 - phi_r)⟩ (some ant_az)
    peak_ant_gain (some downtilt2) none (some ver_beamwidth) (some fbr)
  get_2d_antenna_gain dirs_relative_boresight gh.1 gv.2 gvsup.2
    g_h_theta_0 g_h_theta_180 peak_ant_gain

/-- `e_antenna_gain(dirs, ant_az, peak_ant_gain, hor_patt)`: Method E.
Horizontal gain from the pattern, vertical contributions zero; the 2-D
combination receives the boresight-relative dirs (not the original
`dirs`). -/
noncomputable def e_antenna_gain (dirs : Dirs) (ant_az peak_ant_gain : ℝ)
    (hor_patt : Pattern) : ℝ :=
  let dirs_relative_boresight := get_dirs_relative_boresight dirs ant_az
  let gh := get_given_2d_pattern_gains dirs_relative_boresight
    (some hor_patt) none (some ant_az) none
  let g_h_theta_0 := hor_patt.gain.getD 180 0
  let g_h_theta_180 := hor_patt.gain.getD 0 0
  get_2d_antenna_gain dirs_relative_boresight gh.1 0 0
    g_h_theta_0 g_h_theta_180 peak_ant_gain

/-- `np.isscalar` / `np.atleast_1d` shape model: a scalar (`Sum.inl`) or a
vector (`Sum.inr`) of directions. -/
abbrev NpVal := ℝ ⊕ List ℝ

/-- `np.atleast_1d`. -/
def atleast_1d : NpVal → List ℝ
  | Sum.inl x => [x]
  | Sum.inr l => l

/-- `np.isscalar`. -/
def np_isscalar : NpVal → Bool
  | Sum.inl _ => true
  | Sum.inr _ => false

/-- `get_radar_normalized_gains(hor_dirs, radar_azimuth, radar_beamwidth=3)`:
for beamwidth 360 the function returns the scalar `0.` at once (whatever the
shape of `hor_dirs`); otherwise each direction is folded relative to the
radar azimuth, and the gain is `0` inside the half-beamwidth and `-25`
outside; a scalar input is unwrapped back to a scalar. -/
noncomputable def get_radar_normalized_gains (hor_dirs : NpVal)
    (radar_azimuth : ℝ) (radar_beamwidth : ℝ := 3) : NpVal :=
  if radar_beamwidth = 360 then Sum.inl 0
  else
    let is_scalar := np_isscalar hor_dirs
    let gains := (atleast_1d hor_dirs).map (fun d =>
      let bore_angle := |fold1 (d - radar_azimuth)|
      if bore_angle < radar_beamwidth / 2 then (0 : ℝ) else -25)
    if is_scalar then Sum.inl (gains.headD 0) else Sum.inr gains

/-- `get_gso_gains(theta, nominal_gain)` element-wise: the masked-array
updates of the source amount to this piecewise curve on `|theta|`
(initial value `-10`, then the `<= 3` / `(3, 48]` masks for the
perpendicular plane and the `<= 1.5` / `(1.5, 7]` / `(7, 9.2]` /
`(9.2, 48]` masks for the tangent plane). -/
noncomputable def get_gso_gains (theta nominal_gain : ℝ) : ℝ × ℝ :=
  let t := |theta|
  let gain_gso_p :=
    if t ≤ 3 then nominal_gain
    else if t ≤ 48 then 32 - 25 * Real.logb 10 t
    else -10
  let gain_gso_t :=
    if t ≤ 1.5 then nominal_gain
    else if t ≤ 7 then 29 - 25 * Real.logb 10 t
    else if t ≤ 9.2 then 8
    else if t ≤ 48 then 32 - 25 * Real.logb 10 t
    else -10
  (gain_gso_t, gain_gso_p)

/-- The per-direction body of `get_fss_gains`: off-axis angle from the
spherical-geometry formula (inputs converted to radians, result back to
degrees) and the weighted GSO tangent/perpendicular combination. -/
noncomputable def fss_gain_at (fss_pointing_azimuth fss_pointing_elevation
    fss_antenna_gain w_1 w_2 hor_dir ver_dir : ℝ) : ℝ :=
  let h := hor_dir * (Real.pi / 180)
  let v := ver_dir * (Real.pi / 180)
  let az := fss_pointing_azimuth * (Real.pi / 180)
  let el := fss_pointing_elevation * (Real.pi / 180)
  let theta := 180 / Real.pi * Real.arccos
    (Real.cos v * Real.cos el * Real.cos (az - h) + Real.sin v * Real.sin el)
  let g := get_gso_gains theta fss_antenna_gain
  w_1 * g.1 + w_2 * g.2

/-- `get_fss_gains(hor_dirs, ver_dirs, fss_pointing_azimuth,
fss_pointing_elevation, fss_antenna_gain, w_1=0, w_2=1)`:
element-wise `fss_gain_at` over the (atleast-1d) direction arrays, the
scalar/vector shape of `hor_dirs` preserved on output. -/
noncomputable def get_fss_gains (hor_dirs ver_dirs : NpVal)
    (fss_pointing_azimuth fss_pointing_elevation fss_antenna_gain : ℝ)
    (w_1 : ℝ := 0) (w_2 : ℝ := 1) : NpVal :=
  let is_scalar := np_isscalar hor_dirs
  let gains := List.zipWith
    (fss_gain_at fss_pointing_azimuth fss_pointing_elevation fss_antenna_gain w_1 w_2)
    (atleast_1d hor_dirs) (atleast_1d ver_dirs)
  if is_scalar then Sum.inl (gains.headD 0) else Sum.inr gains

end Lib

namespace Harness

/-- One row of `antennaPatternDatabase.csv` as read by
`import_antenna_pattern_database` (columns relevant to the engine). -/
structure DbRecord where
  antennaPatternId : String
  azimuthRadiationPattern : String
  elevationRadiationPattern : String

/-- The `horizontalPattern` sub-object of `antennaModel`. -/
structure HorizontalPattern where
  antennaPatternId : String

/-- The `antennaModel` registration sub-object.  An absent or falsy field is
`none`; `verticalPattern`'s content is never read by the dispatcher, only
its presence, so it is modelled by its (unused) pattern id. -/
structure AntennaModel where
  horizontalPattern : Option HorizontalPattern
  verticalPattern : Option String

/-- The `installationParam` registration record, restricted to the fields
the gain dispatcher reads (geometry fields feed only the out-of-scope
propagation model).  An absent or `None`/falsy optional field is `none`. -/
structure InstallationParam where
  antennaGain : ℝ
  azimuth : Option ℝ
  frontToBackRatio : Option ℝ
  antennaDowntilt : Option ℝ
  antennaBeamwidth : Option ℝ
  antennaVerticalBeamwidth : Option ℝ
  antennaModel : Option AntennaModel

/-- `get_standard_antenna_gain(dirs, peak_ant_gain, ant_az, hor_beamwidth)`
(the Release-1 formula): isotropic `peak` when beamwidth or azimuth is
absent, zero or 360; otherwise the folded bore angle's parabolic
attenuation, floored at `-20` dB, plus `peak`. -/
noncomputable def get_standard_antenna_gain (dirs : Dirs) (peak_ant_gain : ℝ)
    (ant_az : Option ℝ := none) (hor_beamwidth : Option ℝ := none) : ℝ :=
  if hor_beamwidth = none ∨ ant_az = none
      ∨ hor_beamwidth = some 0 ∨ hor_beamwidth = some 360 then
    peak_ant_gain
  else
    let bore_angle := Lib.fold1 (dirs.hor - ant_az.getD 0)
    let g := -12 * (bore_angle / hor_beamwidth.getD 0) ^ 2
    (if g < -20 then -20 else g) + peak_ant_gain

/-- `antenna_gain_method_f(dirs, peak_ant_gain, ant_az=None,
hor_beamwidth=None)`: delegates to `get_standard_antenna_gain`. -/
noncomputable def antenna_gain_method_f (dirs : Dirs) (peak_ant_gain : ℝ)
    (ant_az : Option ℝ := none) (hor_beamwidth : Option ℝ := none) : ℝ :=
  get_standard_antenna_gain dirs peak_ant_gain ant_az hor_beamwidth

/-- `get_standard_antenna_gains_hor_ver(...)`: the harness copy of
`Lib.get_standard_2d_gains` (its body is line-for-line the same computation). -/
noncomputable def get_standard_antenna_gains_hor_ver (dirs : DirsOpt)
    (ant_azimuth : Option ℝ := none) (peak_ant_gain : ℝ := 0)
    (ant_mech_downtilt : Option ℝ := none) (ant_hor_beamwidth : Option ℝ := none)
    (ant_ver_beamwidth : Option ℝ := none) (ant_fbr : Option ℝ := none) :
    ℝ × ℝ :=
  let fbr := ant_fbr.getD 20
  let g_h_theta_r := match dirs.hor with
    | none => 0
    | some theta_r =>
      if ant_hor_beamwidth = none ∨ ant_azimuth = none
          ∨ ant_hor_beamwidth = some 0 ∨ ant_hor_beamwidth = some 360 then
        peak_ant_gain
      else
        -(min (12 * (theta_r / ant_hor_beamwidth.getD 0) ^ 2) fbr) + peak_ant_gain
  let g_v_phi_r := match dirs.ver with
    | none => 0
    | some phi_r =>
      if ant_ver_beamwidth = none ∨ ant_mech_downtilt = none
          ∨ ant_ver_beamwidth = some 0 ∨ ant_ver_beamwidth = some 360 then
        peak_ant_gain
      else
        -(min (12 * (phi_r / ant_ver_beamwidth.getD 0) ^ 2) fbr) + peak_ant_gain
  (g_h_theta_r, g_v_phi_r)

/-- `calculate_gain_from_given_patterns(dirs, hor_pattern, ver_pattern,
ant_azimuth, ant_mech_downtilt)`: the harness inlines, three times, the
same exact-hit-or-bracketing-interpolation scan that the lib factors into
`_get_gain_at_angle`; the model reuses that shared subfunction.  The
supplementary vertical angle `180 - phi_r` gets the same `>= 180 → -360`
correction. -/
noncomputable def calculate_gain_from_given_patterns (dirs : Dirs)
    (hor_pattern : Option Pattern := none) (ver_pattern : Option Pattern := none)
    (ant_azimuth : Option ℝ := none) (ant_mech_downtilt : Option ℝ := none) :
    ℝ × ℝ × ℝ :=
  let theta_r := dirs.hor
  let phi_r := dirs.ver
  let g_h_theta_r := match hor_pattern with
    | none => 0
    | some hp => Lib._get_gain_at_angle theta_r hp
  let g_v := match ver_pattern with
    | none => (0, 0)
    | some vp =>
      let sup0 := 180 - phi_r
      let phi_r_supplementary_angle := if sup0 ≥ 180 then sup0 - 360 else sup0
      (Lib._get_gain_at_angle phi_r vp,
        Lib._get_gain_at_angle phi_r_supplementary_angle vp)
  (g_h_theta_r, g_v.1, g_v.2)

/-- `get_2d_antenna_gain(...)` (harness copy, identical formula to the
lib's): blending weight `abs(dirs['hor'])/180` of the passed-in dirs. -/
noncomputable def get_2d_antenna_gain (dirs : Dirs) (hor_gain ver_gain
    ver_gain_sup_angle hor_gain_0 hor_gain_180 : ℝ) (peak_ant_gain : ℝ := 0) : ℝ :=
  let hor_dir := dirs.hor
  let g_cbsd_relative := hor_gain + ((1 - |hor_dir| / 180) * (ver_gain - hor_gain_0)
    + (|hor_dir| / 180) * (ver_gain_sup_angle - hor_gain_180))
  g_cbsd_relative + peak_ant_gain

/-- `antenna_gain_method_b1(dirs, ant_az, peak_ant_gain, hor_pattern,
ver_pattern, downtilt)`: the harness B1.  Unlike the lib's
`b1_antenna_gain`, the downtilt is clamped to ±15 FIRST and the clamped
value is then used in the `cos`-weighted vertical-angle derivation. -/
noncomputable def antenna_gain_method_b1 (dirs : Dirs) (ant_az peak_ant_gain : ℝ)
    (hor_pattern ver_pattern : Pattern) (downtilt : ℝ) : ℝ :=
  let theta_r := Lib.fold1 (dirs.hor - ant_az)
  let downtilt2 := if downtilt < -15 then -15 else if downtilt > 15 then 15 else downtilt
  let phi_r := dirs.ver + downtilt2 * Real.cos (theta_r * (180 / Real.pi))
  let g := calculate_gain_from_given_patterns ⟨theta_r, phi_r⟩
    (some hor_pattern) (some ver_pattern) (some ant_az) (some downtilt2)
  get_2d_antenna_gain dirs g.1 g.2.1 g.2.2
    (hor_pattern.gain.getD 180 0) (hor_pattern.gain.getD 0 0) peak_ant_gain

/-- `antenna_gain_method_c(dirs, ant_az, peak_ant_gain, downtilt,
hor_beamwidth, ver_beamwidth, fbr)`: the harness Method C; `phi_r` is
computed with the pre-clamp downtilt, the clamp follows. -/
noncomputable def antenna_gain_method_c (dirs : Dirs) (ant_az peak_ant_gain
    downtilt hor_beamwidth ver_beamwidth fbr : ℝ) : ℝ :=
  let theta_r := Lib.fold1 (dirs.hor - ant_az)
  let phi_r := dirs.ver + downtilt * Real.cos (theta_r * (180 / Real.pi))
  let downtilt2 := if downtilt < -15 then -15 else if downtilt > 15 then 15 else downtilt
  let g := get_standard_antenna_gains_hor_ver ⟨some theta_r, some phi_r⟩
    (some ant_az) peak_ant_gain (some downtilt2) (some hor_beamwidth)
    (some ver_beamwidth) (some fbr)
  let g0 := get_standard_antenna_gains_hor_ver ⟨some 0, none⟩ (some ant_az)
    peak_ant_gain none (some hor_beamwidth) none (some fbr)
  let g180 := get_standard_antenna_gains_hor_ver ⟨some 180, none⟩ (some ant_az)
    peak_ant_gain none (some hor_beamwidth) none (some fbr)
  let gsup := get_standard_antenna_gains_hor_ver ⟨none, some (180 - phi_r)⟩
    (some ant_az) peak_ant_gain (some downtilt2) none (some ver_beamwidth) (some fbr)
  get_2d_antenna_gain dirs g.1 g.2 gsup.2 g0.1 g180.1 peak_ant_gain

/-- `antenna_gain_method_d(dirs, ant_az, peak_ant_gain, hor_patt, downtilt,
ver_beamwidth, fbr)`: the harness Method D; `phi_r` pre-clamp, and the 2-D
combination receives the boresight-relative dirs. -/
noncomputable def antenna_gain_method_d (dirs : Dirs) (ant_az peak_ant_gain : ℝ)
    (hor_patt : Pattern) (downtilt ver_beamwidth fbr : ℝ) : ℝ :=
  let theta_r := Lib.fold1 (dirs.hor - ant_az)
  let phi_r := dirs.ver + downtilt * Real.cos (theta_r * (180 / Real.pi))
  let downtilt2 := if downtilt < -15 then -15 else if downtilt > 15 then 15 else downtilt
  let dirs_relative_boresight : Dirs := ⟨theta_r, phi_r⟩
  let phi_r_sup := 180 - phi_r
  let gh := calculate_gain_from_given_patterns dirs_relative_boresight
    (some hor_patt) none (some ant_az) none
  let g_h_theta_0 := hor_patt.gain.getD 180 0
  let g_h_theta_180 := hor_patt.gain.getD 0 0
  let gv := get_standard_antenna_gains_hor_ver ⟨some theta_r, some phi_r⟩
    (some ant_az) peak_ant_gain (some downtilt2) none (some ver_beamwidth) (some fbr)
  let gvsup := get_standard_antenna_gains_hor_ver ⟨none, some phi_r_sup⟩
    (some ant_az) peak_ant_gain (some downtilt2) none (some ver_beamwidth) (some fbr)
  get_2d_antenna_gain dirs_relative_boresight gh.1 gv.2 gvsup.2
    g_h_theta_0 g_h_theta_180 peak_ant_gain

/-- `antenna_gain_method_e(dirs, ant_az, peak_ant_gain, hor_patt)`: the
harness Method E; vertical contributions zero, and the 2-D combination
receives the boresight-relative dirs (whose `ver` entry is the literal 0). -/
noncomputable def antenna_gain_method_e (dirs : Dirs) (ant_az peak_ant_gain : ℝ)
    (hor_patt : Pattern) : ℝ :=
  let theta_r := Lib.fold1 (dirs.hor - ant_az)
  let dirs_relative_boresight : Dirs := ⟨theta_r, 0⟩
  let gh := calculate_gain_from_given_patterns dirs_relative_boresight
    (some hor_patt) none (some ant_az) none
  let g_h_theta_0 := hor_patt.gain.getD 180 0
  let g_h_theta_180 := hor_patt.gain.getD 0 0
  get_2d_antenna_gain dirs_relative_boresight gh.1 0 0
    g_h_theta_0 g_h_theta_180 peak_ant_gain

/-- The `for i, dic in enumerate(ant_database): ... break` lookup of the
azimuth-radiation-pattern filename for an `antennaPatternId` inside
`calculate_antenna_gain_EAP`.  When no row matches, the source leaves
`patt_filename` unbound (a `NameError` at the subsequent `open`); the
model returns `""`, a path no theorem exercises. -/
def antenna_pattern_filename (ant_database : List DbRecord)
    (antennaPatternId : String) : String :=
  match ant_database.find? (fun dic => dic.antennaPatternId == antennaPatternId) with
  | some dic => dic.azimuthRadiationPattern
  | none => ""

/-- `calculate_antenna_gain_EAP(tx, rx)`: the method dispatcher.  The
propagation call that produces the incidence angles is an external
collaborator, so the model takes the resulting `dirs` directly; the CSV
reads are modelled by `read_pattern : String → Pattern` (filename to parsed
pattern).  Both pattern loads of the B1 branch read `patt_filename`, the
azimuth-radiation-pattern file (the elevation file is never opened).  The
function mutates the caller's `tx['installationParam']` when it defaults
`frontToBackRatio`; the model returns the final record alongside the gain.
The Method C call passes `antennaGain` and `azimuth` in the source's
(swapped) argument order. -/
noncomputable def calculate_antenna_gain_EAP (ant_database : List DbRecord)
    (read_pattern : String → Pattern) (tx : InstallationParam) (dirs : Dirs) :
    ℝ × InstallationParam :=
  match tx.azimuth with
  | none => (antenna_gain_method_f dirs tx.antennaGain, tx)
  | some az =>
    if az = 0 then (antenna_gain_method_f dirs tx.antennaGain, tx)
    else
      let tx2 := if tx.frontToBackRatio = none ∨ tx.frontToBackRatio = some 0 then
        { tx with frontToBackRatio := some 20 } else tx
      let c_or_f : ℝ :=
        match tx2.antennaBeamwidth, tx2.antennaDowntilt, tx2.antennaVerticalBeamwidth with
        | some bw, some dt, some vbw =>
          if bw ≠ 0 ∧ dt ≠ 0 ∧ vbw ≠ 0 then
            antenna_gain_method_c dirs tx2.antennaGain az dt bw vbw
              (tx2.frontToBackRatio.getD 0)
          else antenna_gain_method_f dirs tx2.antennaGain
        | _, _, _ => antenna_gain_method_f dirs tx2.antennaGain
      let gain : ℝ :=
        match tx2.antennaModel with
        | none => c_or_f
        | some am =>
          match am.horizontalPattern with
          | none => c_or_f
          | some hp0 =>
            let patt_filename :=
              antenna_pattern_filename ant_database hp0.antennaPatternId
            let hor_pattern := read_pattern patt_filename
            match tx2.antennaDowntilt with
            | none => antenna_gain_method_e dirs az tx2.antennaGain hor_pattern
            | some dt =>
              if dt = 0 then
                antenna_gain_method_e dirs az tx2.antennaGain hor_pattern
              else
                match am.verticalPattern with
                | some _ =>
                  let ver_pattern := read_pattern patt_filename
                  antenna_gain_method_b1 dirs az tx2.antennaGain hor_pattern
                    ver_pattern dt
                | none =>
                  match tx2.antennaVerticalBeamwidth with
                  | some vbw =>
                    if vbw ≠ 0 then
                      antenna_gain_method_d dirs az tx2.antennaGain hor_pattern dt
                        vbw (tx2.frontToBackRatio.getD 0)
                    else antenna_gain_method_e dirs az tx2.antennaGain hor_pattern
                  | none => antenna_gain_method_e dirs az tx2.antennaGain hor_pattern
      (gain, tx2)

end Harness

/-! ### Specification-side definitions and shared helper lemmas -/

/-- The specification's angle folding into the interval `(-180, 180]`
(with `+180` the canonical representative of the back lobe), written
through the ceiling function: the unique `360`-multiple shift landing in
`(-180, 180]`. -/
noncomputable def fold180 (t : ℝ) : ℝ := t - 360 * (Int.ceil (t / 360 - 1 / 2) : ℝ)

lemma fold180_eq_self {t : ℝ} (h1 : -180 < t) (h2 : t ≤ 180) : fold180 t = t := by
  have hc : Int.ceil (t / 360 - 1 / 2) = 0 := by
    rw [Int.ceil_eq_iff]
    push_cast
    constructor <;> linarith
  simp only [fold180, hc]
  norm_num

/-- On the single-wrap range `[-360, 360]` the source's two-step correction
`Lib.fold1` agrees with the specification's `fold180` up to sign at the one
boundary point `-180` (where `fold1` gives `-180` and `fold180` gives
`180`); in particular their absolute values agree. -/
lemma abs_fold1_eq_abs_fold180 {t : ℝ} (h1 : -360 ≤ t) (h2 : t ≤ 360) :
    |Lib.fold1 t| = |fold180 t| := by
  by_cases ha : t > 180
  · have hc : Int.ceil (t / 360 - 1 / 2) = 1 := by
      rw [Int.ceil_eq_iff]
      push_cast
      constructor <;> linarith
    simp only [Lib.fold1, fold180, hc]
    rw [if_pos ha, if_neg (by linarith)]
    norm_num
  · by_cases hb : t < -180
    · have hc : Int.ceil (t / 360 - 1 / 2) = -1 := by
        rw [Int.ceil_eq_iff]
        push_cast
        constructor <;> linarith
      simp only [Lib.fold1, fold180, hc]
      rw [if_neg ha, if_pos hb]
      norm_num
    · by_cases hz : t = -180
      · subst hz
        have hc : Int.ceil ((-180 : ℝ) / 360 - 1 / 2) = -1 := by
          rw [Int.ceil_eq_iff]
          push_cast
          constructor <;> linarith
        simp only [Lib.fold1, fold180, hc]
        norm_num
      · have hgt : -180 < t := lt_of_le_of_ne (not_lt.mp hb) (fun h => hz h.symm)
        simp only [Lib.fold1, fold180_eq_self hgt (not_lt.mp ha)]
        rw [if_neg ha, if_neg (by linarith)]

/-! ### C8: periodicity of the angle-folding operation -/

/-- C8 counterexample: the folding the source implements is a single
`±360` correction, so it is not 360-degree periodic: folding
`0 + 360·2 = 720` yields `360`, not `fold(0) = 0`. -/
theorem C8_fold_counterexample : Lib.fold1 ((0 : ℝ) + 360 * 2) ≠ Lib.fold1 0 := by
  norm_num [Lib.fold1]

/-- C8 (amended): the source's fold is one `±360` correction, so the fold
law `fold(θ + 360k) = fold(θ)` holds only for a single wrap: for every
`θ ∈ (-180, 180]` and `k ∈ {-1, 0, 1}` with `θ + 360k ≠ -180`,
`fold1 (θ + 360k) = fold1 θ`; full periodicity over all integers `k`
fails (see the counterexample at `θ = 0, k = 2`). -/
theorem C8_fold_single_wrap (θ : ℝ) (k : ℤ)
    (h1 : -180 < θ) (h2 : θ ≤ 180) (hk : k = -1 ∨ k = 0 ∨ k = 1)
    (h3 : θ + 360 * (k : ℝ) ≠ -180) :
    Lib.fold1 (θ + 360 * (k : ℝ)) = Lib.fold1 θ := by
  rcases hk with rfl | rfl | rfl <;>
    · push_cast at h3 ⊢
      rcases h3.lt_or_lt with h4 | h4 <;>
        · simp only [Lib.fold1]
          split_ifs <;> linarith

/-- C8 witness: the single-wrap fold law at `θ = 30`, `k = 1`. -/
theorem C8_fold_witness :
    Lib.fold1 ((30 : ℝ) + 360 * ((1 : ℤ) : ℝ)) = Lib.fold1 30 :=
  C8_fold_single_wrap 30 1 (by norm_num) (by norm_num)
    (Or.inr (Or.inr rfl)) (by norm_num)

/-! ### C6: the radar normalized gain step function -/

/-- C6: for beamwidth 360 the radar gain is 0 dB; otherwise, on the
documented direction domain `[0, 360]`, the gain is 0 dB when the absolute
folded difference from the radar azimuth is below half the beamwidth and
-25 dB otherwise. -/
theorem C6_radar_step (x az bw : ℝ) :
    (bw = 360 → Lib.get_radar_normalized_gains (Sum.inl x) az bw = Sum.inl 0) ∧
    (bw ≠ 360 → 0 ≤ x → x ≤ 360 → 0 ≤ az → az ≤ 360 →
      Lib.get_radar_normalized_gains (Sum.inl x) az bw =
        Sum.inl (if |fold180 (x - az)| < bw / 2 then 0 else -25)) := by
  constructor
  · intro h
    simp [Lib.get_radar_normalized_gains, h]
  · intro h hx1 hx2 ha1 ha2
    have habs : |Lib.fold1 (x - az)| = |fold180 (x - az)| :=
      abs_fold1_eq_abs_fold180 (by linarith) (by linarith)
    simp [Lib.get_radar_normalized_gains, if_neg h, Lib.np_isscalar,
      Lib.atleast_1d, habs]

/-- C6 witness: a direction 90 degrees off a radar pointing north with a
3-degree beamwidth. -/
theorem C6_radar_witness :
    Lib.get_radar_normalized_gains (Sum.inl 90) 0 3 =
      Sum.inl (if |fold180 ((90 : ℝ) - 0)| < 3 / 2 then 0 else -25) :=
  (C6_radar_step 90 0 3).2 (by norm_num) (by norm_num) (by norm_num)
    (by norm_num) (by norm_num)

/-! ### C7: scalar/vector shape preservation of the facade operations -/

/-- C7 counterexample: the radar facade does not always preserve the shape
of its direction argument: for beamwidth 360 it returns the scalar `0.`
even for a vector of directions. -/
theorem C7_shape_counterexample :
    Lib.get_radar_normalized_gains (Sum.inr [0, 90]) 0 360 = Sum.inl 0 ∧
    (Lib.get_radar_normalized_gains (Sum.inr [0, 90]) 0 360).isRight = false := by
  constructor <;> simp [Lib.get_radar_normalized_gains]

/-- C7 (amended): away from the radar's 360-beamwidth early return, the
radar and FSS facades preserve the shape of the direction argument: a
scalar direction yields the scalar equal to the first element of the
result for the one-element vector, and a vector yields a vector of the
same length.  (For radar beamwidth 360 the result collapses to the scalar
`0.`, see the counterexample.) -/
theorem C7_shape_preservation (x yv az el g w1 w2 bw : ℝ) (l lv : List ℝ)
    (hbw : bw ≠ 360) (hlen : lv.length = l.length) :
    Lib.get_radar_normalized_gains (Sum.inl x) az bw
      = Sum.inl ((Lib.atleast_1d
          (Lib.get_radar_normalized_gains (Sum.inr [x]) az bw)).headD 0) ∧
    (Lib.atleast_1d (Lib.get_radar_normalized_gains (Sum.inr l) az bw)).length
      = l.length ∧
    (Lib.get_radar_normalized_gains (Sum.inr l) az bw).isRight = true ∧
    Lib.get_fss_gains (Sum.inl x) (Sum.inl yv) az el g w1 w2
      = Sum.inl ((Lib.atleast_1d
          (Lib.get_fss_gains (Sum.inr [x]) (Sum.inr [yv]) az el g w1 w2)).headD 0) ∧
    (Lib.atleast_1d (Lib.get_fss_gains (Sum.inr l) (Sum.inr lv) az el g w1 w2)).length
      = l.length ∧
    (Lib.get_fss_gains (Sum.inr l) (Sum.inr lv) az el g w1 w2).isRight = true := by
  refine ⟨?_, ?_, ?_, ?_, ?_, ?_⟩ <;>
    simp [Lib.get_radar_normalized_gains, Lib.get_fss_gains, if_neg hbw,
      Lib.np_isscalar, Lib.atleast_1d, hlen]

/-- C7 witness: the shape laws at a concrete radar/FSS configuration. -/
theorem C7_shape_witness :
    Lib.get_radar_normalized_gains (Sum.inl 10) 100 3
      = Sum.inl ((Lib.atleast_1d
          (Lib.get_radar_normalized_gains (Sum.inr [10]) 100 3)).headD 0) ∧
    (Lib.atleast_1d (Lib.get_radar_normalized_gains (Sum.inr [0, 90]) 100 3)).length
      = ([0, 90] : List ℝ).length ∧
    (Lib.get_radar_normalized_gains (Sum.inr [0, 90]) 100 3).isRight = true ∧
    Lib.get_fss_gains (Sum.inl 10) (Sum.inl 5) 100 10 35 0 1
      = Sum.inl ((Lib.atleast_1d
          (Lib.get_fss_gains (Sum.inr [10]) (Sum.inr [5]) 100 10 35 0 1)).headD 0) ∧
    (Lib.atleast_1d
        (Lib.get_fss_gains (Sum.inr [0, 90]) (Sum.inr [1, 2]) 100 10 35 0 1)).length
      = ([0, 90] : List ℝ).length ∧
    (Lib.get_fss_gains (Sum.inr [0, 90]) (Sum.inr [1, 2]) 100 10 35 0 1).isRight
      = true :=
  C7_shape_preservation 10 5 100 10 35 0 1 3 [0, 90] [1, 2] (by norm_num) rfl

/-! ### C3: isotropic fallback when azimuth is omitted or zero -/

/-- C3: when the installation's azimuth is absent or zero-valued, the
dispatcher returns Method F with no azimuth and no beamwidth, i.e. the
isotropic gain: the installation's peak antenna gain, whatever the
direction. -/
theorem C3_isotropic_fallback (db : List Harness.DbRecord) (fs : String → Pattern)
    (tx : Harness.InstallationParam) (dirs : Dirs)
    (h : tx.azimuth = none ∨ tx.azimuth = some 0) :
    (Harness.calculate_antenna_gain_EAP db fs tx dirs).1 = tx.antennaGain := by
  rcases h with h | h <;>
    simp [Harness.calculate_antenna_gain_EAP, h, Harness.antenna_gain_method_f,
      Harness.get_standard_antenna_gain]

/-- C3 witness: scenario S1 — peak 10 dBi, azimuth absent, direction
`(hor = 47.3, ver = -30)` gives gain 10. -/
theorem C3_isotropic_witness :
    (Harness.calculate_antenna_gain_EAP [] (fun _ => ⟨[], []⟩)
      ⟨10, none, none, none, none, none, none⟩ ⟨47.3, -30⟩).1 = 10 :=
  C3_isotropic_fallback [] (fun _ => ⟨[], []⟩)
    ⟨10, none, none, none, none, none, none⟩ ⟨47.3, -30⟩ (Or.inl rfl)

/-! ### C10: the dispatcher's front-to-back-ratio default mutates the record -/

/-- C10: once the azimuth check has passed, an absent or zero
`frontToBackRatio` is overwritten with 20 in the caller-supplied
installation record: the record coming out of the call carries
`frontToBackRatio = 20` and differs from the record that went in. -/
theorem C10_fbr_mutation (db : List Harness.DbRecord) (fs : String → Pattern)
    (tx : Harness.InstallationParam) (dirs : Dirs) (az : ℝ)
    (h1 : tx.azimuth = some az) (h2 : az ≠ 0)
    (h3 : tx.frontToBackRatio = none ∨ tx.frontToBackRatio = some 0) :
    (Harness.calculate_antenna_gain_EAP db fs tx dirs).2.frontToBackRatio = some 20 ∧
    (Harness.calculate_antenna_gain_EAP db fs tx dirs).2 ≠ tx := by
  have hsnd : (Harness.calculate_antenna_gain_EAP db fs tx dirs).2 =
      { tx with frontToBackRatio := some 20 } := by
    simp [Harness.calculate_antenna_gain_EAP, h1, h2, if_pos h3]
  refine ⟨by rw [hsnd], ?_⟩
  rw [hsnd]
  intro heq
  have := congrArg Harness.InstallationParam.frontToBackRatio heq
  simp at this
  rcases h3 with h3 | h3 <;> rw [h3] at this <;> simp at this

/-- C10 witness: an installation with azimuth 20 and no
`frontToBackRatio` field comes back mutated, with the field set to 20. -/
theorem C10_fbr_witness :
    (Harness.calculate_antenna_gain_EAP [] (fun _ => ⟨[], []⟩)
      ⟨10, some 20, none, none, none, none, none⟩ ⟨0, 0⟩).2.frontToBackRatio
        = some 20 ∧
    (Harness.calculate_antenna_gain_EAP [] (fun _ => ⟨[], []⟩)
      ⟨10, some 20, none, none, none, none, none⟩ ⟨0, 0⟩).2
        ≠ ⟨10, some 20, none, none, none, none, none⟩ :=
  C10_fbr_mutation [] (fun _ => ⟨[], []⟩)
    ⟨10, some 20, none, none, none, none, none⟩ ⟨0, 0⟩ 20 rfl (by norm_num)
    (Or.inl rfl)

/-! ### C9: the B1 branch reads the vertical pattern from the azimuth file -/

lemma antenna_pattern_filename_elevation_independent (db : List Harness.DbRecord)
    (g : Harness.DbRecord → String) (pid : String) :
    Harness.antenna_pattern_filename
      (db.map (fun r => ⟨r.antennaPatternId, r.azimuthRadiationPattern, g r⟩)) pid =
    Harness.antenna_pattern_filename db pid := by
  have hcomp : ((fun dic : Harness.DbRecord => dic.antennaPatternId == pid) ∘
      (fun r : Harness.DbRecord =>
        (⟨r.antennaPatternId, r.azimuthRadiationPattern, g r⟩ : Harness.DbRecord)))
      = fun r : Harness.DbRecord => r.antennaPatternId == pid := rfl
  simp only [Harness.antenna_pattern_filename, List.find?_map, hcomp]
  cases h : List.find? (fun r : Harness.DbRecord => r.antennaPatternId == pid) db <;>
    simp

/-- C9: whenever the dispatcher selects Method B1, both patterns it passes
are parsed from the same azimuth-radiation-pattern file (the elevation
file is never opened): the vertical-pattern argument equals the
horizontal-pattern argument, and the result of the dispatcher is invariant
under arbitrary rewriting of every record's `elevationRadiationPattern`
column. -/
theorem C9_vertical_pattern_from_azimuth_file (db : List Harness.DbRecord)
    (fs : String → Pattern) (tx : Harness.InstallationParam) (dirs : Dirs)
    (az dt : ℝ) (am : Harness.AntennaModel) (hp0 : Harness.HorizontalPattern)
    (vid : String) (g : Harness.DbRecord → String)
    (h1 : tx.azimuth = some az) (h2 : az ≠ 0)
    (h3 : tx.antennaModel = some am) (h4 : am.horizontalPattern = some hp0)
    (h5 : tx.antennaDowntilt = some dt) (h6 : dt ≠ 0)
    (h7 : am.verticalPattern = some vid) :
    (Harness.calculate_antenna_gain_EAP db fs tx dirs).1 =
      Harness.antenna_gain_method_b1 dirs az tx.antennaGain
        (fs (Harness.antenna_pattern_filename db hp0.antennaPatternId))
        (fs (Harness.antenna_pattern_filename db hp0.antennaPatternId)) dt ∧
    Harness.calculate_antenna_gain_EAP
        (db.map (fun r => ⟨r.antennaPatternId, r.azimuthRadiationPattern, g r⟩))
        fs tx dirs =
      Harness.calculate_antenna_gain_EAP db fs tx dirs := by
  constructor
  · by_cases hf : tx.frontToBackRatio = none ∨ tx.frontToBackRatio = some 0 <;>
      simp [Harness.calculate_antenna_gain_EAP, h1, h2, h3, h4, h5, h6, h7, hf]
  · simp [Harness.calculate_antenna_gain_EAP,
      antenna_pattern_filename_elevation_independent]

/-- C9 witness: a fully populated B1 installation against a one-row
database; the gain comes from `antenna_gain_method_b1` with both pattern
arguments read from `az.csv`, and rewriting the elevation column to
`elev2.csv` changes nothing. -/
theorem C9_vertical_pattern_witness :
    (Harness.calculate_antenna_gain_EAP [⟨"pat1", "az.csv", "el.csv"⟩]
        (fun _ => ⟨[], []⟩)
        ⟨18.8, some 20, some 20, some 5, none, none,
          some ⟨some ⟨"pat1"⟩, some "vp"⟩⟩ ⟨50, 20⟩).1 =
      Harness.antenna_gain_method_b1 ⟨50, 20⟩ 20 18.8
        ((fun _ => (⟨[], []⟩ : Pattern))
          (Harness.antenna_pattern_filename [⟨"pat1", "az.csv", "el.csv"⟩] "pat1"))
        ((fun _ => (⟨[], []⟩ : Pattern))
          (Harness.antenna_pattern_filename [⟨"pat1", "az.csv", "el.csv"⟩] "pat1")) 5 ∧
    Harness.calculate_antenna_gain_EAP
        (([⟨"pat1", "az.csv", "el.csv"⟩] : List Harness.DbRecord).map
          (fun r => ⟨r.antennaPatternId, r.azimuthRadiationPattern,
            (fun _ => "elev2.csv") r⟩))
        (fun _ => ⟨[], []⟩)
        ⟨18.8, some 20, some 20, some 5, none, none,
          some ⟨some ⟨"pat1"⟩, some "vp"⟩⟩ ⟨50, 20⟩ =
      Harness.calculate_antenna_gain_EAP [⟨"pat1", "az.csv", "el.csv"⟩]
        (fun _ => ⟨[], []⟩)
        ⟨18.8, some 20, some 20, some 5, none, none,
          some ⟨some ⟨"pat1"⟩, some "vp"⟩⟩ ⟨50, 20⟩ :=
  C9_vertical_pattern_from_azimuth_file [⟨"pat1", "az.csv", "el.csv"⟩]
    (fun _ => ⟨[], []⟩)
    ⟨18.8, some 20, some 20, some 5, none, none, some ⟨some ⟨"pat1"⟩, some "vp"⟩⟩
    ⟨50, 20⟩ 20 5 ⟨some ⟨"pat1"⟩, some "vp"⟩ ⟨"pat1"⟩ "vp" (fun _ => "elev2.csv")
    rfl (by norm_num) rfl rfl rfl (by norm_num) rfl

/-! ### C1: Method C at boresight -/

/-- C1 counterexample: an installation dispatched to Method C (azimuth 20,
peak 10 dBi, downtilt 1, symmetric 60-degree beamwidths, front-to-back
ratio 20) queried at boresight `(hor = azimuth, ver = 0)` yields
`20 - 2/675 ≈ 19.997` dBi, which is not within `1e-9` dB of the peak
gain 10: the per-plane standard gains already include the peak and the 2-D
combination adds it again. -/
theorem C1_boresight_counterexample :
    ¬ (|Lib.c_antenna_gain ⟨20, 0⟩ 20 10 1 60 60 20 - 10| ≤ 1e-9) := by
  have hval : Lib.c_antenna_gain ⟨20, 0⟩ 20 10 1 60 60 20 = 20 - 2/675 := by
    simp only [Lib.c_antenna_gain, Lib.get_dirs_relative_boresight,
      Lib.limit_downtilt_value, Lib.get_standard_2d_gains, Lib.get_2d_antenna_gain,
      Lib.fold1]
    norm_num [Real.cos_zero, Option.some_ne_none]
  rw [hval]
  rw [abs_of_pos (by norm_num)]
  norm_num

/-- C1 (amended): for Method C with symmetric beamwidths `BW ∉ {0, 360}`,
a nonnegative front-to-back ratio and direction at boresight
(`hor = azimuth`, `ver = 0`), the computed gain is `2·peak` minus the
downtilt-induced vertical attenuation terms — the peak gain is added twice
(once inside `get_standard_2d_gains`, once in `get_2d_antenna_gain`), and
a nonzero downtilt shifts the vertical angle to `downtilt` itself (as
`cos 0 = 1`), so the gain equals the peak only at `peak = 0`-style
degenerate configurations, not in general. -/
theorem C1_boresight_formula (az peak d BW fbr : ℝ)
    (h0 : BW ≠ 0) (h360 : BW ≠ 360) (hfbr : 0 ≤ fbr) :
    Lib.c_antenna_gain ⟨az, 0⟩ az peak d BW BW fbr =
      2 * peak - (1 - |az| / 180) * min (12 * (d / BW) ^ 2) fbr
        + (|az| / 180) * (min (12 * (180 / BW) ^ 2) fbr
            - min (12 * ((180 - d) / BW) ^ 2) fbr) := by
  simp only [Lib.c_antenna_gain, Lib.get_dirs_relative_boresight,
    Lib.limit_downtilt_value, Lib.get_standard_2d_gains, Lib.get_2d_antenna_gain,
    Lib.fold1, sub_self]
  norm_num [Real.cos_zero, Option.some_ne_none, h0, h360, min_eq_left hfbr]
  ring

/-- C1 witness: the boresight formula at azimuth 20, peak 10, downtilt 1,
beamwidths 60, front-to-back ratio 20. -/
theorem C1_boresight_witness :
    Lib.c_antenna_gain ⟨20, 0⟩ 20 10 1 60 60 20 =
      2 * 10 - (1 - |(20 : ℝ)| / 180) * min (12 * ((1 : ℝ) / 60) ^ 2) 20
        + (|(20 : ℝ)| / 180) * (min (12 * ((180 : ℝ) / 60) ^ 2) 20
            - min (12 * (((180 : ℝ) - 1) / 60) ^ 2) 20) :=
  C1_boresight_formula 20 10 1 60 20 (by norm_num) (by norm_num) (by norm_num)

/-! ### C2: the cos argument in the vertical boresight angle -/

/-- Modelled from the spec: section 4.1's `boresight_relative(dirs,
azimuth, downtilt_opt)` with `θ_r = fold180(dirs.hor - azimuth)` and
`φ_r = dirs.ver + downtilt · cos(θ_r · π/180)` when a downtilt is given,
else 0 — the degrees-to-radians conversion the claim states, which the
source does not perform (it multiplies by `180/π` instead). -/
noncomputable def get_dirs_relative_boresight_spec (dirs : Dirs) (ant_az : ℝ)
    (downtilt : Option ℝ := none) : Dirs :=
  let theta_r := fold180 (dirs.hor - ant_az)
  let phi_r := match downtilt with
    | none => 0
    | some d => dirs.ver + d * Real.cos (theta_r * (Real.pi / 180))
  ⟨theta_r, phi_r⟩

/-- C2: at the direction `hor = π²/360 ≈ 0.0274` degrees (azimuth 0,
`ver = 0`, downtilt 1), the source's `φ_r = ver + downtilt ·
cos(θ_r · 180/π)` evaluates to `cos(π/2) = 0`, while the claimed formula
`φ_r = ver + downtilt · cos(θ_r · π/180)` is strictly positive — the code
feeds `cos` a degree value scaled by `180/π` instead of `π/180`.  When no
downtilt is provided the code does return `φ_r = 0` as claimed. -/
theorem C2_cos_argument_divergence :
    (Lib.get_dirs_relative_boresight ⟨Real.pi ^ 2 / 360, 0⟩ 0 (some 1)).ver = 0 ∧
    0 < (get_dirs_relative_boresight_spec ⟨Real.pi ^ 2 / 360, 0⟩ 0 (some 1)).ver ∧
    (Lib.get_dirs_relative_boresight ⟨Real.pi ^ 2 / 360, 0⟩ 0 none).ver = 0 := by
  have hpi := Real.pi_pos
  have hpi2 : Real.pi < 3.15 := Real.pi_lt_d2
  have hx0 : 0 < Real.pi ^ 2 / 360 := by positivity
  have hx1 : Real.pi ^ 2 / 360 < 1 := by nlinarith
  refine ⟨?_, ?_, rfl⟩
  · have harg : Real.pi ^ 2 / 360 * (180 / Real.pi) = Real.pi / 2 := by
      field_simp
      ring
    have hfold1 : Lib.fold1 (Real.pi ^ 2 / 360) = Real.pi ^ 2 / 360 := by
      simp only [Lib.fold1]
      rw [if_neg (show ¬((Real.pi ^ 2 / 360) > 180) from by linarith)]
      rw [if_neg (show ¬((Real.pi ^ 2 / 360) < -180) from by linarith)]
    simp only [Lib.get_dirs_relative_boresight, sub_zero, hfold1, harg,
      Real.cos_pi_div_two]
    norm_num
  · have hfold : fold180 (Real.pi ^ 2 / 360 - 0) = Real.pi ^ 2 / 360 := by
      rw [sub_zero]
      exact fold180_eq_self (by linarith) (by linarith)
    simp only [get_dirs_relative_boresight_spec, hfold]
    have hcos : 0 < Real.cos (Real.pi ^ 2 / 360 * (Real.pi / 180)) := by
      apply Real.cos_pos_of_mem_Ioo
      constructor
      · nlinarith
      · nlinarith
    nlinarith

/-! ### C4: which horizontal direction feeds the 2-D blending weight -/

/-- Horizontal pattern for the C4 counterexample: angle samples
`[-180, 0, 10]`, with gain `-20` at the back lobe (index 0), `0` at
boresight (padded so that index 180 exists, as Method E reads
`gain[180]` and `gain[0]`), and `-2` at 10 degrees. -/
noncomputable def patternC4hor : Pattern :=
  ⟨[-180, 0, 10], [-20, 0, -2] ++ List.replicate 178 0⟩

/-- C4 counterexample: Method E does NOT blend with the original
horizontal direction.  At direction `hor = 350`, azimuth 340 (so
`θ_r = 10`), Method E returns `82/9` — the blend built from the
boresight-relative dirs — whereas the same combination fed the original
direction dict (weight `|350|/180`) would give `422/9`. -/
theorem C4_blend_counterexample :
    Lib.e_antenna_gain ⟨350, 0⟩ 340 10 patternC4hor ≠
      Lib.get_2d_antenna_gain ⟨350, 0⟩
        (Lib.get_given_2d_pattern_gains
          (Lib.get_dirs_relative_boresight ⟨350, 0⟩ 340) (some patternC4hor) none
          (some 340) none).1
        0 0 (patternC4hor.gain.getD 180 0) (patternC4hor.gain.getD 0 0) 10 := by
  have h1 : Lib.e_antenna_gain ⟨350, 0⟩ 340 10 patternC4hor = 82/9 := by
    simp only [Lib.e_antenna_gain, Lib.get_dirs_relative_boresight,
      Lib.get_given_2d_pattern_gains, Lib.get_2d_antenna_gain, Lib.fold1,
      Lib._get_gain_at_angle, Lib.get_multiple_indices, patternC4hor,
      List.enum, List.enumFrom, List.filter_cons, List.filter_nil, beq_iff_eq]
    norm_num
  have h2 : Lib.get_2d_antenna_gain ⟨350, 0⟩
      (Lib.get_given_2d_pattern_gains
        (Lib.get_dirs_relative_boresight ⟨350, 0⟩ 340) (some patternC4hor) none
        (some 340) none).1
      0 0 (patternC4hor.gain.getD 180 0) (patternC4hor.gain.getD 0 0) 10 = 422/9 := by
    simp only [Lib.get_dirs_relative_boresight,
      Lib.get_given_2d_pattern_gains, Lib.get_2d_antenna_gain, Lib.fold1,
      Lib._get_gain_at_angle, Lib.get_multiple_indices, patternC4hor,
      List.enum, List.enumFrom, List.filter_cons, List.filter_nil, beq_iff_eq]
    norm_num
  rw [h1, h2]
  norm_num

/-- C4 (amended): Methods B1 and C hand the ORIGINAL direction dict to the
2-D combination, so their blending weight is `|hor_dir|/180` of the
direction as received; Methods D and E hand over the boresight-relative
dirs, so their weight is `|θ_r|/180` of the folded angle — and
consequently Method E is invariant under any change of direction and
azimuth that preserves the folded boresight-relative angle. -/
theorem C4_blend_weight_sources (dirs : Dirs)
    (az az2 peak d hbw vbw fbr hor2 ver2 : ℝ) (hp vp : Pattern)
    (hfold : Lib.fold1 (hor2 - az2) = Lib.fold1 (dirs.hor - az)) :
    Lib.b1_antenna_gain dirs az peak hp vp d =
      Lib.get_2d_antenna_gain dirs
        (Lib.get_given_2d_pattern_gains
          (Lib.get_dirs_relative_boresight dirs az (some d)) (some hp) (some vp)
          (some az) (some (Lib.limit_downtilt_value d))).1
        (Lib.get_given_2d_pattern_gains
          (Lib.get_dirs_relative_boresight dirs az (some d)) (some hp) (some vp)
          (some az) (some (Lib.limit_downtilt_value d))).2.1
        (Lib.get_given_2d_pattern_gains
          (Lib.get_dirs_relative_boresight dirs az (some d)) (some hp) (some vp)
          (some az) (some (Lib.limit_downtilt_value d))).2.2
        (hp.gain.getD 180 0) (hp.gain.getD 0 0) peak ∧
    Lib.c_antenna_gain dirs az peak d hbw vbw fbr =
      Lib.get_2d_antenna_gain dirs
        (Lib.get_standard_2d_gains
          ⟨some (Lib.get_dirs_relative_boresight dirs az (some d)).hor,
           some (Lib.get_dirs_relative_boresight dirs az (some d)).ver⟩
          (some az) peak (some (Lib.limit_downtilt_value d)) (some hbw) (some vbw)
          (some fbr)).1
        (Lib.get_standard_2d_gains
          ⟨some (Lib.get_dirs_relative_boresight dirs az (some d)).hor,
           some (Lib.get_dirs_relative_boresight dirs az (some d)).ver⟩
          (some az) peak (some (Lib.limit_downtilt_value d)) (some hbw) (some vbw)
          (some fbr)).2
        (Lib.get_standard_2d_gains
          ⟨none, some (180 - (Lib.get_dirs_relative_boresight dirs az (some d)).ver)⟩
          (some az) peak (some (Lib.limit_downtilt_value d)) none (some vbw)
          (some fbr)).2
        (Lib.get_standard_2d_gains ⟨some 0, none⟩ (some az) peak none (some hbw)
          none (some fbr)).1
        (Lib.get_standard_2d_gains ⟨some 180, none⟩ (some az) peak none (some hbw)
          none (some fbr)).1
        peak ∧
    Lib.d_antenna_gain dirs az peak hp d vbw fbr =
      Lib.get_2d_antenna_gain (Lib.get_dirs_relative_boresight dirs az (some d))
        (Lib.get_given_2d_pattern_gains
          (Lib.get_dirs_relative_boresight dirs az (some d)) (some hp) none
          (some az) none).1
        (Lib.get_standard_2d_gains
          ⟨some (Lib.get_dirs_relative_boresight dirs az (some d)).hor,
           some (Lib.get_dirs_relative_boresight dirs az (some d)).ver⟩
          (some az) peak (some (Lib.limit_downtilt_value d)) none (some vbw)
          (some fbr)).2
        (Lib.get_standard_2d_gains
          ⟨none, some (180 - (Lib.get_dirs_relative_boresight dirs az (some d)).ver)⟩
          (some az) peak (some (Lib.limit_downtilt_value d)) none (some vbw)
          (some fbr)).2
        (hp.gain.getD 180 0) (hp.gain.getD 0 0) peak ∧
    Lib.e_antenna_gain dirs az peak hp =
      Lib.get_2d_antenna_gain (Lib.get_dirs_relative_boresight dirs az)
        (Lib.get_given_2d_pattern_gains (Lib.get_dirs_relative_boresight dirs az)
          (some hp) none (some az) none).1
        0 0 (hp.gain.getD 180 0) (hp.gain.getD 0 0) peak ∧
    Lib.e_antenna_gain ⟨hor2, ver2⟩ az2 peak hp = Lib.e_antenna_gain dirs az peak hp := by
  refine ⟨rfl, rfl, rfl, rfl, ?_⟩
  simp only [Lib.e_antenna_gain, Lib.get_dirs_relative_boresight, hfold]
  rfl

/-- C4 witness: the four blend equations and the Method E invariance at a
concrete configuration (direction 350, azimuth 340, and the rotated pair
direction 10, azimuth 0, both folding to `θ_r = 10`). -/
theorem C4_blend_witness :
    Lib.b1_antenna_gain ⟨350, 0⟩ 340 10 patternC4hor patternC4hor 5 =
      Lib.get_2d_antenna_gain ⟨350, 0⟩
        (Lib.get_given_2d_pattern_gains
          (Lib.get_dirs_relative_boresight ⟨350, 0⟩ 340 (some 5)) (some patternC4hor)
          (some patternC4hor) (some 340) (some (Lib.limit_downtilt_value 5))).1
        (Lib.get_given_2d_pattern_gains
          (Lib.get_dirs_relative_boresight ⟨350, 0⟩ 340 (some 5)) (some patternC4hor)
          (some patternC4hor) (some 340) (some (Lib.limit_downtilt_value 5))).2.1
        (Lib.get_given_2d_pattern_gains
          (Lib.get_dirs_relative_boresight ⟨350, 0⟩ 340 (some 5)) (some patternC4hor)
          (some patternC4hor) (some 340) (some (Lib.limit_downtilt_value 5))).2.2
        (patternC4hor.gain.getD 180 0) (patternC4hor.gain.getD 0 0) 10 ∧
    Lib.c_antenna_gain ⟨350, 0⟩ 340 10 5 120 60 20 =
      Lib.get_2d_antenna_gain ⟨350, 0⟩
        (Lib.get_standard_2d_gains
          ⟨some (Lib.get_dirs_relative_boresight ⟨350, 0⟩ 340 (some 5)).hor,
           some (Lib.get_dirs_relative_boresight ⟨350, 0⟩ 340 (some 5)).ver⟩
          (some 340) 10 (some (Lib.limit_downtilt_value 5)) (some 120) (some 60)
          (some 20)).1
        (Lib.get_standard_2d_gains
          ⟨some (Lib.get_dirs_relative_boresight ⟨350, 0⟩ 340 (some 5)).hor,
           some (Lib.get_dirs_relative_boresight ⟨350, 0⟩ 340 (some 5)).ver⟩
          (some 340) 10 (some (Lib.limit_downtilt_value 5)) (some 120) (some 60)
          (some 20)).2
        (Lib.get_standard_2d_gains
          ⟨none, some (180 - (Lib.get_dirs_relative_boresight ⟨350, 0⟩ 340 (some 5)).ver)⟩
          (some 340) 10 (some (Lib.limit_downtilt_value 5)) none (some 60)
          (some 20)).2
        (Lib.get_standard_2d_gains ⟨some 0, none⟩ (some 340) 10 none (some 120)
          none (some 20)).1
        (Lib.get_standard_2d_gains ⟨some 180, none⟩ (some 340) 10 none (some 120)
          none (some 20)).1
        10 ∧
    Lib.d_antenna_gain ⟨350, 0⟩ 340 10 patternC4hor 5 60 20 =
      Lib.get_2d_antenna_gain (Lib.get_dirs_relative_boresight ⟨350, 0⟩ 340 (some 5))
        (Lib.get_given_2d_pattern_gains
          (Lib.get_dirs_relative_boresight ⟨350, 0⟩ 340 (some 5)) (some patternC4hor)
          none (some 340) none).1
        (Lib.get_standard_2d_gains
          ⟨some (Lib.get_dirs_relative_boresight ⟨350, 0⟩ 340 (some 5)).hor,
           some (Lib.get_dirs_relative_boresight ⟨350, 0⟩ 340 (some 5)).ver⟩
          (some 340) 10 (some (Lib.limit_downtilt_value 5)) none (some 60)
          (some 20)).2
        (Lib.get_standard_2d_gains
          ⟨none, some (180 - (Lib.get_dirs_relative_boresight ⟨350, 0⟩ 340 (some 5)).ver)⟩
          (some 340) 10 (some (Lib.limit_downtilt_value 5)) none (some 60)
          (some 20)).2
        (patternC4hor.gain.getD 180 0) (patternC4hor.gain.getD 0 0) 10 ∧
    Lib.e_antenna_gain ⟨350, 0⟩ 340 10 patternC4hor =
      Lib.get_2d_antenna_gain (Lib.get_dirs_relative_boresight ⟨350, 0⟩ 340)
        (Lib.get_given_2d_pattern_gains (Lib.get_dirs_relative_boresight ⟨350, 0⟩ 340)
          (some patternC4hor) none (some 340) none).1
        0 0 (patternC4hor.gain.getD 180 0) (patternC4hor.gain.getD 0 0) 10 ∧
    Lib.e_antenna_gain ⟨10, 7⟩ 0 10 patternC4hor =
      Lib.e_antenna_gain ⟨350, 0⟩ 340 10 patternC4hor :=
  C4_blend_weight_sources ⟨350, 0⟩ 340 0 10 5 120 60 20 10 7 patternC4hor
    patternC4hor (by norm_num)

/-! ### C5: downtilt clamp ordering in the vertical-angle derivation -/

/-- Horizontal pattern for the C5 counterexample: the single angle sample 0
with 181 zero gains (so that `gain[180]` and `gain[0]` exist). -/
noncomputable def patternC5hor : Pattern := ⟨[0], List.replicate 181 (0:ℝ)⟩

/-- Vertical pattern for the C5 counterexample: `-1` dB at 15 degrees
(the post-clamp vertical angle for downtilt 30 at boresight), `-5` dB at
30 degrees (the pre-clamp angle), `0` at the two supplementary angles. -/
noncomputable def patternC5ver : Pattern := ⟨[15, 30, 150, 165], [-1, -5, 0, 0]⟩

/-- C5 counterexample: at downtilt 30 (outside `[-15, 15]`), boresight
direction `(0, 0)`, azimuth 0 and peak 10, the harness Method B1 clamps
FIRST and evaluates the vertical pattern at `φ_r = 15`, giving 9 dBi — not
the pre-clamp derivation (`φ_r = 30`, giving 5 dBi) that the claim states
and that the lib's `b1_antenna_gain` performs. -/
theorem C5_clamp_counterexample :
    Harness.antenna_gain_method_b1 ⟨0, 0⟩ 0 10 patternC5hor patternC5ver 30 = 9 ∧
    Lib.b1_antenna_gain ⟨0, 0⟩ 0 10 patternC5hor patternC5ver 30 = 5 ∧
    Harness.antenna_gain_method_b1 ⟨0, 0⟩ 0 10 patternC5hor patternC5ver 30 ≠
      Lib.b1_antenna_gain ⟨0, 0⟩ 0 10 patternC5hor patternC5ver 30 := by
  have h1 : Harness.antenna_gain_method_b1 ⟨0, 0⟩ 0 10 patternC5hor patternC5ver 30
      = 9 := by
    simp only [Harness.antenna_gain_method_b1,
      Harness.calculate_gain_from_given_patterns, Harness.get_2d_antenna_gain,
      Lib.fold1, Lib._get_gain_at_angle, Lib.get_multiple_indices,
      patternC5hor, patternC5ver,
      List.enum, List.enumFrom, List.filter_cons, List.filter_nil, beq_iff_eq]
    norm_num [Real.cos_zero]
  have h2 : Lib.b1_antenna_gain ⟨0, 0⟩ 0 10 patternC5hor patternC5ver 30 = 5 := by
    simp only [Lib.b1_antenna_gain, Lib.get_dirs_relative_boresight,
      Lib.limit_downtilt_value, Lib.get_given_2d_pattern_gains,
      Lib.get_2d_antenna_gain, Lib.fold1, Lib._get_gain_at_angle,
      Lib.get_multiple_indices, patternC5hor, patternC5ver,
      List.enum, List.enumFrom, List.filter_cons, List.filter_nil, beq_iff_eq]
    norm_num [Real.cos_zero]
  refine ⟨h1, h2, ?_⟩
  rw [h1, h2]
  norm_num

lemma limit_eq_ite (d : ℝ) :
    Lib.limit_downtilt_value d = if d < -15 then -15 else if d > 15 then 15 else d := by
  simp only [Lib.limit_downtilt_value]
  split_ifs with h1 h2
  · exact min_eq_left (by norm_num)
  · exact min_eq_right (le_of_lt h2)
  · exact min_eq_left (by linarith)

lemma limit_idem (d : ℝ) :
    Lib.limit_downtilt_value (Lib.limit_downtilt_value d) =
      Lib.limit_downtilt_value d := by
  rw [limit_eq_ite (Lib.limit_downtilt_value d), limit_eq_ite d]
  split_ifs <;> norm_num <;> linarith

/-- C5 (amended): the lib's Methods B1, C and D (and the harness C and D)
derive `φ_r` from the PRE-clamp downtilt — witnessed by the second
conjunct, the lib's boresight transform applying the raw `d` inside the
`cos`-weighted term — but the harness Method B1 clamps first: it coincides
with the lib B1 run at the already-clamped downtilt for every input. -/
theorem C5_clamp_ordering (dirs : Dirs) (az peak d : ℝ) (hp vp : Pattern) :
    Harness.antenna_gain_method_b1 dirs az peak hp vp d =
      Lib.b1_antenna_gain dirs az peak hp vp (Lib.limit_downtilt_value d) ∧
    (Lib.get_dirs_relative_boresight dirs az (some d)).ver =
      dirs.ver + d * Real.cos ((Lib.fold1 (dirs.hor - az)) * (180 / Real.pi)) := by
  refine ⟨?_, rfl⟩
  have hl := (limit_eq_ite d).symm
  simp only [Harness.antenna_gain_method_b1, Lib.b1_antenna_gain,
    Lib.get_dirs_relative_boresight, Harness.calculate_gain_from_given_patterns,
    Lib.get_given_2d_pattern_gains, Harness.get_2d_antenna_gain,
    Lib.get_2d_antenna_gain, limit_idem, hl]
